import Mathlib

/-!
Shallow embedding of the authentication and session subsystem of the
go-fiber-todo-api repository (internal/services auth service, its token
codec built on golang-jwt v5 HS256, the Redis-backed session store, and
the user repository contract), together with proofs of the spec claims.

Modelling conventions:
* Machine time is `Int` (Unix seconds).  The jwt/v5 validator accepts a
  token exactly when the verification instant is strictly before `exp`
  (`cmp.Before(exp)` with zero leeway), which the embedding mirrors.
* HMAC-SHA256 is idealised: a signature value records the secret and the
  exact signed content, and verification succeeds exactly when they match
  (no collisions, no forgeries).  Signing with a byte-slice key is total
  in the Go library, so token generation is a total function here, as in
  the source.
* bcrypt is idealised the same way: hashing fails exactly when the
  password exceeds 72 bytes (`ErrPasswordTooLong` in the pinned x/crypto
  v0.18.0), and verification succeeds exactly when the stored hash was
  produced from the supplied password.
* External collaborators (user repository backed by Postgres/MongoDB, the
  Redis session store) are modelled as association-list states; backend
  unavailability is an explicit boolean per call site, and a failed call
  leaves the backing state unchanged (a failed Redis SET/DEL writes
  nothing).  Each session-store call is recorded in an operation log so
  that frame properties are statable.
* Go struct and function names are kept; fields whose Go name collides
  with a Lean keyword are renamed minimally (`Type` becomes `type_`).
-/

/-- JWT signing algorithms that can appear in a token header.
the keyfunc of `validateToken` in golang-jwt accepts only the HMAC family. -/
inductive SigAlg
  | HS256
  | HS384
  | HS512
  | RS256
  | ES256
  | algNone
deriving DecidableEq

/-- Whether the header algorithm is `*jwt.SigningMethodHMAC`
(the type assertion in the keyfunc of `validateToken`). -/
def SigAlg.isHMAC : SigAlg → Bool
  | .HS256 => true
  | .HS384 => true
  | .HS512 => true
  | _ => false

/-- The decoded JWT payload as the Go code reads it out of `jwt.MapClaims`:
each field is `some v` when the claim is present with the right dynamic
type, `none` when absent or of the wrong type (the failed Go type
assertion yields the zero value). -/
structure JWTPayload where
  userId : Option String
  username : Option String
  sessionId : Option String
  type_ : Option String
  iss : Option String
  exp : Option Int
  iat : Option Int
deriving DecidableEq

/-- Idealised HMAC signature: `mac secret alg payload` is the one signature
that verifies under `secret` for exactly that header algorithm and payload;
`forged` covers every byte string that is not such a MAC. -/
inductive Signature
  | mac (secret : String) (alg : SigAlg) (payload : JWTPayload)
  | forged (bits : String)
deriving DecidableEq

/-- A structurally well-formed JWT: header algorithm, payload, signature. -/
structure JWT where
  alg : SigAlg
  payload : JWTPayload
  sig : Signature
deriving DecidableEq

/-- A token string as received by the service: either it parses into the
three-segment JWT shape or it does not. -/
inductive TokenString
  | malformed (s : String)
  | jwt (t : JWT)
deriving DecidableEq

/-- Embeds `models.TokenTypeAccess`. -/
def TokenTypeAccess : String := "access"

/-- Embeds `models.TokenTypeRefresh`. -/
def TokenTypeRefresh : String := "refresh"

/-- Embeds `models.Claims` (Go field `Type` is `type_` here). -/
structure Claims where
  UserID : String
  Username : String
  SessionID : String
  type_ : String
deriving DecidableEq

/-- Embeds `config.JWTConfig`; durations in seconds. -/
structure JWTConfig where
  Secret : String
  AccessExpiry : Int
  RefreshExpiry : Int
  Issuer : String
deriving DecidableEq

/-- Expiry test of the jwt/v5 validator at instant `now`: a present `exp`
claim passes only when `now` is strictly before it; an absent `exp` claim
is not an error (it is optional unless `WithExpirationRequired` is set). -/
def JWTPayload.expired (p : JWTPayload) (now : Int) : Bool :=
  match p.exp with
  | some e => decide (e ≤ now)
  | none => false

/-- Errors produced by `AuthService.validateToken`.  `jwt.Parse` folds
malformed input, a non-HMAC header algorithm (keyfunc error), a bad
signature and an expired `exp` claim into the one wrapped
"failed to parse token" error. -/
inductive TokenError
  | failedToParseToken
  | invalidToken
  | invalidTokenClaims
  | invalidTokenType
  | missingRequiredClaims
deriving DecidableEq

/-- Embeds `AuthService.validateToken` (config.go lines 555-597).  `jwt.Parse`
with the HMAC-only keyfunc, then the token-type check, then extraction of
the three identity claims with a missing-claims check.  The Go branches
`!token.Valid` and the `MapClaims` assertion are unreachable once
`jwt.Parse` returns no error, so `invalidToken` and `invalidTokenClaims`
are never produced. -/
def validateToken (secret : String) (now : Int) (tokenString : TokenString)
    (expectedType : String) : Except TokenError Claims :=
  match tokenString with
  | .malformed _ => .error .failedToParseToken
  | .jwt t =>
    if t.alg.isHMAC = false then .error .failedToParseToken
    else if t.sig ≠ Signature.mac secret t.alg t.payload then .error .failedToParseToken
    else if t.payload.expired now then .error .failedToParseToken
    else
      match t.payload.type_ with
      | none => .error .invalidTokenType
      | some tokenType =>
        if tokenType ≠ expectedType then .error .invalidTokenType
        else
          let userID := t.payload.userId.getD ""
          let username := t.payload.username.getD ""
          let sessionID := t.payload.sessionId.getD ""
          if userID = "" ∨ username = "" ∨ sessionID = "" then .error .missingRequiredClaims
          else .ok { UserID := userID, Username := username, SessionID := sessionID,
                     type_ := tokenType }

/-- Embeds `AuthService.ValidateAccessToken`: delegates to `validateToken` with
expected type `access`. -/
def ValidateAccessToken (cfg : JWTConfig) (now : Int) (tokenString : TokenString) :
    Except TokenError Claims :=
  validateToken cfg.Secret now tokenString TokenTypeAccess

/-- Embeds `AuthService.generateAccessToken`: HS256 map claims with type `access`,
`exp = now + AccessExpiry`, `iat = now`, signed with the configured secret.
Signing with a byte-slice key never fails in the Go library, so this is
total. -/
def generateAccessToken (cfg : JWTConfig) (now : Int)
    (userID username sessionID : String) : TokenString :=
  let payload : JWTPayload :=
    { userId := some userID, username := some username, sessionId := some sessionID,
      type_ := some TokenTypeAccess, iss := some cfg.Issuer,
      exp := some (now + cfg.AccessExpiry), iat := some now }
  .jwt { alg := .HS256, payload := payload, sig := .mac cfg.Secret .HS256 payload }

/-- Embeds `AuthService.generateRefreshToken`: as `generateAccessToken` but with
type `refresh` and `exp = now + RefreshExpiry`. -/
def generateRefreshToken (cfg : JWTConfig) (now : Int)
    (userID username sessionID : String) : TokenString :=
  let payload : JWTPayload :=
    { userId := some userID, username := some username, sessionId := some sessionID,
      type_ := some TokenTypeRefresh, iss := some cfg.Issuer,
      exp := some (now + cfg.RefreshExpiry), iat := some now }
  .jwt { alg := .HS256, payload := payload, sig := .mac cfg.Secret .HS256 payload }

/-- Embeds `models.Session`; times in Unix seconds. -/
structure Session where
  ID : String
  UserID : String
  CreatedAt : Int
  ExpiresAt : Int
  IsActive : Bool
deriving DecidableEq

/-- A session-store operation, for the operation log. -/
inductive StoreOp
  | set (sessionID : String)
  | get (sessionID : String)
  | delete (sessionID : String)
deriving DecidableEq

/-- The Redis session store state: the stored sessions keyed by session id
plus the log of operations performed against the backend.  Redis TTL
removal of an entry is modelled as absence of the entry. -/
structure SessionStoreState where
  sessions : List (String × Session)
  log : List StoreOp
deriving DecidableEq

/-- Association-list lookup by key. -/
def lookupEntry (sessions : List (String × Session)) (sessionID : String) :
    Option Session :=
  match sessions.find? (fun e => e.1 = sessionID) with
  | some e => some e.2
  | none => none

/-- Overwrite-or-insert by key (`RedisSessionStore.Set` overwrites an
existing entry with the same id). -/
def setEntry (sessions : List (String × Session)) (sessionID : String)
    (session : Session) : List (String × Session) :=
  match sessions with
  | [] => [(sessionID, session)]
  | e :: rest =>
    if e.1 = sessionID then (sessionID, session) :: rest
    else e :: setEntry rest sessionID session

/-- Remove by key (`DEL`). -/
def eraseEntry (sessions : List (String × Session)) (sessionID : String) :
    List (String × Session) :=
  sessions.filter (fun e => e.1 ≠ sessionID)

/-- Embeds `RedisSessionStore.Set`: on backend failure the error is returned and
nothing is written; otherwise the session is stored under its id,
overwriting any existing entry.  The call is logged either way. -/
def storeSet (fails : Bool) (st : SessionStoreState) (sessionID : String)
    (session : Session) : Except String Unit × SessionStoreState :=
  if fails then
    (.error "failed to store session", { st with log := st.log ++ [.set sessionID] })
  else
    (.ok (), { sessions := setEntry st.sessions sessionID session,
               log := st.log ++ [.set sessionID] })

/-- Embeds `RedisSessionStore.Get`: backend failure or an absent (or TTL-expired)
entry is an error; the store is never modified by a read. -/
def storeGet (fails : Bool) (st : SessionStoreState) (sessionID : String) :
    Except String Session × SessionStoreState :=
  let st' : SessionStoreState := { st with log := st.log ++ [.get sessionID] }
  if fails then (.error "failed to get session", st')
  else
    match lookupEntry st.sessions sessionID with
    | none => (.error "session not found", st')
    | some session => (.ok session, st')

/-- Embeds `RedisSessionStore.Delete`: backend failure is an error and writes
nothing; `DEL` of an absent key returns 0, which the store surfaces as the
"session not found" error; otherwise the entry is removed. -/
def storeDelete (fails : Bool) (st : SessionStoreState) (sessionID : String) :
    Except String Unit × SessionStoreState :=
  let st' : SessionStoreState := { st with log := st.log ++ [.delete sessionID] }
  if fails then (.error "failed to delete session", st')
  else
    match lookupEntry st.sessions sessionID with
    | none => (.error "session not found", st')
    | some _ =>
      (.ok (), { sessions := eraseEntry st.sessions sessionID,
                 log := st.log ++ [.delete sessionID] })

/-- Embeds `models.User`; `Password` holds the bcrypt hash. -/
structure User where
  ID : String
  Username : String
  Password : String
  Email : String
  Image : String
  CreatedAt : Int
  UpdatedAt : Int
deriving DecidableEq

/-- Embeds `models.UserResponse`: the sanitized user — no password field. -/
structure UserResponse where
  ID : String
  Username : String
  Email : String
  Image : String
  CreatedAt : Int
  UpdatedAt : Int
deriving DecidableEq

/-- Embeds `User.ToResponse`: copies every field except the password hash. -/
def User.ToResponse (u : User) : UserResponse :=
  { ID := u.ID, Username := u.Username, Email := u.Email, Image := u.Image,
    CreatedAt := u.CreatedAt, UpdatedAt := u.UpdatedAt }

/-- The user repository contents (Postgres or MongoDB behind
`interfaces.UserRepository`). -/
structure UserRepoState where
  users : List User
deriving DecidableEq

/-- Which repository calls fail with a backend error during one service
operation (the collaborator may be unavailable per call). -/
structure RepoFailures where
  existsByUsernameFails : Bool
  existsByEmailFails : Bool
  createFails : Bool
  getByUsernameFails : Bool
  getByEmailFails : Bool
deriving DecidableEq

/-- Embeds `UserRepository.ExistsByUsername`. -/
def ExistsByUsername (fails : Bool) (repo : UserRepoState) (username : String) :
    Except String Bool :=
  if fails then .error "repository unavailable"
  else .ok (repo.users.any (fun u => u.Username = username))

/-- Embeds `UserRepository.ExistsByEmail`. -/
def ExistsByEmail (fails : Bool) (repo : UserRepoState) (email : String) :
    Except String Bool :=
  if fails then .error "repository unavailable"
  else .ok (repo.users.any (fun u => u.Email = email))

/-- Embeds `UserRepository.GetByUsername`: backend failure and no-such-user are
both errors (Login collapses either into invalid credentials). -/
def GetByUsername (fails : Bool) (repo : UserRepoState) (username : String) :
    Except String User :=
  if fails then .error "repository unavailable"
  else
    match repo.users.find? (fun u => u.Username = username) with
    | some u => .ok u
    | none => .error "user not found"

/-- Embeds `UserRepository.GetByEmail`. -/
def GetByEmail (fails : Bool) (repo : UserRepoState) (email : String) :
    Except String User :=
  if fails then .error "repository unavailable"
  else
    match repo.users.find? (fun u => u.Email = email) with
    | some u => .ok u
    | none => .error "user not found"

/-- Embeds `UserRepository.Create`: the backend assigns the id and
timestamps; a failed insert writes nothing. -/
def Create (fails : Bool) (repo : UserRepoState) (newID : String) (now : Int)
    (user : User) : Except String User × UserRepoState :=
  if fails then (.error "repository unavailable", repo)
  else
    let created : User := { user with ID := newID, CreatedAt := now, UpdatedAt := now }
    (.ok created, { users := repo.users ++ [created] })

/-- The bcrypt digest of a password that bcrypt accepts, idealised: the
digest determines the password it was generated from.  Salt and cost
factor do not change whether verification later succeeds, so they are
elided. -/
def bcryptDigest (password : String) : String :=
  "bcrypt$" ++ password

/-- Embeds `AuthService.hashPassword`.  `bcrypt.GenerateFromPassword` in
the pinned x/crypto v0.18.0 returns `ErrPasswordTooLong` for passwords
over 72 bytes (and the request validation admits up to 100 characters,
so the branch is reachable); the cost is the in-range default, so no
other failure exists. -/
def hashPassword (password : String) : Except String String :=
  if 72 < password.utf8ByteSize then
    .error "bcrypt: password length exceeds 72 bytes"
  else .ok (bcryptDigest password)

/-- Embeds `AuthService.verifyPassword` (`bcrypt.CompareHashAndPassword`):
a password over 72 bytes is itself an error (mismatch), and otherwise
verification succeeds exactly when the stored hash was produced from the
password. -/
def verifyPassword (hashedPassword password : String) : Bool :=
  if 72 < password.utf8ByteSize then false
  else hashedPassword = bcryptDigest password

/-- The error kinds `AuthService` returns (each corresponds to one
`fmt.Errorf` site).  `failedToGenerateAccessToken` and
`failedToGenerateRefreshToken` mirror dead branches: HMAC signing with a
byte-slice key cannot fail, so no operation ever produces them. -/
inductive AuthError
  | failedToCheckUsername
  | usernameAlreadyExists
  | failedToCheckEmail
  | emailAlreadyExists
  | failedToHashPassword
  | failedToCreateUser
  | invalidCredentials
  | failedToCreateSession
  | failedToGenerateAccessToken
  | failedToGenerateRefreshToken
  | invalidRefreshToken
  | invalidSession
  | sessionExpired
  | failedToGetUser
deriving DecidableEq

/-- The message of each error as written by `fmt.Errorf` (for wrapped
errors, the constant prefix before the wrapped cause). -/
def AuthError.message : AuthError → String
  | .failedToCheckUsername => "failed to check username"
  | .usernameAlreadyExists => "username already exists"
  | .failedToCheckEmail => "failed to check email"
  | .emailAlreadyExists => "email already exists"
  | .failedToHashPassword => "failed to hash password"
  | .failedToCreateUser => "failed to create user"
  | .invalidCredentials => "invalid credentials"
  | .failedToCreateSession => "failed to create session"
  | .failedToGenerateAccessToken => "failed to generate access token"
  | .failedToGenerateRefreshToken => "failed to generate refresh token"
  | .invalidRefreshToken => "invalid refresh token"
  | .invalidSession => "invalid session"
  | .sessionExpired => "session expired"
  | .failedToGetUser => "failed to get user"

/-- Embeds `models.RegisterRequest`. -/
structure RegisterRequest where
  Username : String
  Password : String
  Email : String
  Image : String
deriving DecidableEq

/-- Embeds `models.RegisterResponse`: the sanitized user plus a message — no
token and no session appear anywhere in it. -/
structure RegisterResponse where
  User : UserResponse
  Message : String
deriving DecidableEq

/-- Embeds `models.LoginRequest`. -/
structure LoginRequest where
  Username : String
  Password : String
deriving DecidableEq

/-- Embeds `models.LoginByEmailRequest`. -/
structure LoginByEmailRequest where
  Email : String
  Password : String
deriving DecidableEq

/-- Embeds `models.LoginResponse`. -/
structure LoginResponse where
  AccessToken : TokenString
  RefreshToken : TokenString
  ExpiresAt : Int
  User : UserResponse
deriving DecidableEq

/-- Embeds `models.RefreshTokenRequest`. -/
structure RefreshTokenRequest where
  RefreshToken : TokenString
deriving DecidableEq

/-- Embeds `models.RefreshTokenResponse`: a new access token and its expiry —
the response type has no refresh-token field at all. -/
structure RefreshTokenResponse where
  AccessToken : TokenString
  ExpiresAt : Int
deriving DecidableEq

/-- Embeds `models.LogoutRequest`: the Go field is a plain string whose empty
value means "no refresh token supplied"; `none` models the empty string. -/
structure LogoutRequest where
  RefreshToken : Option TokenString
deriving DecidableEq

/-- Embeds `models.LogoutResponse`. -/
structure LogoutResponse where
  Message : String
deriving DecidableEq

/-- Embeds `AuthService.Register` (config.go lines 269-319): username existence
check, then (only when an email was supplied) email existence check, then
bcrypt hash (which fails for a password over 72 bytes, lines 293-297) and
repository insert.  `newID` is the identifier the backend assigns to the
created row and `now` its creation instant. -/
def Register (rf : RepoFailures) (repo : UserRepoState) (newID : String)
    (now : Int) (req : RegisterRequest) :
    Except AuthError RegisterResponse × UserRepoState :=
  match ExistsByUsername rf.existsByUsernameFails repo req.Username with
  | .error _ => (.error .failedToCheckUsername, repo)
  | .ok true => (.error .usernameAlreadyExists, repo)
  | .ok false =>
    let emailCheck : Except String Bool :=
      if req.Email = "" then .ok false
      else ExistsByEmail rf.existsByEmailFails repo req.Email
    match emailCheck with
    | .error _ => (.error .failedToCheckEmail, repo)
    | .ok true => (.error .emailAlreadyExists, repo)
    | .ok false =>
      match hashPassword req.Password with
      | .error _ => (.error .failedToHashPassword, repo)
      | .ok hashedPassword =>
        let user : User :=
          { ID := "", Username := req.Username, Password := hashedPassword,
            Email := req.Email, Image := req.Image, CreatedAt := 0, UpdatedAt := 0 }
        match Create rf.createFails repo newID now user with
        | (.error _, repo') => (.error .failedToCreateUser, repo')
        | (.ok createdUser, repo') =>
          (.ok { User := createdUser.ToResponse,
                 Message := "User registered successfully" }, repo')

/-- Embeds `AuthService.Login` (config.go lines 322-376): user lookup by
username, password verification, session creation in the store, then
access- and refresh-token generation.  `sessionID` stands for the freshly
generated ULID; token generation is total (see `AuthError`), so the dead
error branches after a successful `Set` do not appear. -/
def Login (cfg : JWTConfig) (rf : RepoFailures) (setFails : Bool)
    (repo : UserRepoState) (st : SessionStoreState) (now : Int)
    (sessionID : String) (req : LoginRequest) :
    Except AuthError LoginResponse × SessionStoreState :=
  match GetByUsername rf.getByUsernameFails repo req.Username with
  | .error _ => (.error .invalidCredentials, st)
  | .ok user =>
    if verifyPassword user.Password req.Password = false then
      (.error .invalidCredentials, st)
    else
      let session : Session :=
        { ID := sessionID, UserID := user.ID, CreatedAt := now,
          ExpiresAt := now + cfg.RefreshExpiry, IsActive := true }
      match storeSet setFails st sessionID session with
      | (.error _, st') => (.error .failedToCreateSession, st')
      | (.ok _, st') =>
        (.ok { AccessToken := generateAccessToken cfg now user.ID user.Username sessionID,
               RefreshToken := generateRefreshToken cfg now user.ID user.Username sessionID,
               ExpiresAt := now + cfg.AccessExpiry,
               User := user.ToResponse }, st')

/-- Embeds `AuthService.LoginByEmail` (config.go lines 379-433): identical to
`Login` but the lookup is by email. -/
def LoginByEmail (cfg : JWTConfig) (rf : RepoFailures) (setFails : Bool)
    (repo : UserRepoState) (st : SessionStoreState) (now : Int)
    (sessionID : String) (req : LoginByEmailRequest) :
    Except AuthError LoginResponse × SessionStoreState :=
  match GetByEmail rf.getByEmailFails repo req.Email with
  | .error _ => (.error .invalidCredentials, st)
  | .ok user =>
    if verifyPassword user.Password req.Password = false then
      (.error .invalidCredentials, st)
    else
      let session : Session :=
        { ID := sessionID, UserID := user.ID, CreatedAt := now,
          ExpiresAt := now + cfg.RefreshExpiry, IsActive := true }
      match storeSet setFails st sessionID session with
      | (.error _, st') => (.error .failedToCreateSession, st')
      | (.ok _, st') =>
        (.ok { AccessToken := generateAccessToken cfg now user.ID user.Username sessionID,
               RefreshToken := generateRefreshToken cfg now user.ID user.Username sessionID,
               ExpiresAt := now + cfg.AccessExpiry,
               User := user.ToResponse }, st')

/-- Embeds `AuthService.RefreshToken` (config.go lines 436-470): validate the
refresh token (any codec failure collapses to `invalidRefreshToken`),
fetch the session (`invalidSession` on any store failure), reject an
inactive or past-expiry session (`time.Now().After(ExpiresAt)`, i.e.
`ExpiresAt < now`), and otherwise mint a new access token from the
claims of the token itself.  No refresh token is issued and the store is never
written. -/
def RefreshToken (cfg : JWTConfig) (getFails : Bool) (st : SessionStoreState)
    (now : Int) (req : RefreshTokenRequest) :
    Except AuthError RefreshTokenResponse × SessionStoreState :=
  match validateToken cfg.Secret now req.RefreshToken TokenTypeRefresh with
  | .error _ => (.error .invalidRefreshToken, st)
  | .ok claims =>
    match storeGet getFails st claims.SessionID with
    | (.error _, st') => (.error .invalidSession, st')
    | (.ok session, st') =>
      if session.IsActive = false ∨ session.ExpiresAt < now then
        (.error .sessionExpired, st')
      else
        (.ok { AccessToken :=
                 generateAccessToken cfg now claims.UserID claims.Username claims.SessionID,
               ExpiresAt := now + cfg.AccessExpiry }, st')

/-- Embeds `AuthService.Logout` (config.go lines 473-490): when a refresh token
was supplied and decodes, the session is deleted, with any delete error
merely logged; in every case the success response is returned. -/
def Logout (cfg : JWTConfig) (deleteFails : Bool) (st : SessionStoreState)
    (now : Int) (req : LogoutRequest) : LogoutResponse × SessionStoreState :=
  match req.RefreshToken with
  | none => ({ Message := "Logged out successfully" }, st)
  | some tok =>
    match validateToken cfg.Secret now tok TokenTypeRefresh with
    | .error _ => ({ Message := "Logged out successfully" }, st)
    | .ok claims =>
      let r := storeDelete deleteFails st claims.SessionID
      ({ Message := "Logged out successfully" }, r.2)

/-- A configuration with the default token lifetimes of the repository, used to
instantiate universally quantified theorems at concrete inputs. -/
def sampleCfg : JWTConfig :=
  { Secret := "test-secret-test-secret-test-sec", AccessExpiry := 900,
    RefreshExpiry := 604800, Issuer := "go-fiber" }

/-- A concrete refresh-token payload, for witnesses. -/
def sampleRefreshPayload : JWTPayload :=
  { userId := some "u1", username := some "alice", sessionId := some "s1",
    type_ := some TokenTypeRefresh, iss := some "go-fiber",
    exp := some 605800, iat := some 1000 }

/-- The refresh token carrying `sampleRefreshPayload`, correctly signed
with the sample secret. -/
def sampleRefreshJWT : JWT :=
  { alg := .HS256, payload := sampleRefreshPayload,
    sig := .mac sampleCfg.Secret .HS256 sampleRefreshPayload }

/-- A concrete access-token payload whose `exp` is 1900, for the expiry
boundary witness. -/
def sampleBoundaryPayload : JWTPayload :=
  { userId := some "u1", username := some "alice", sessionId := some "s1",
    type_ := some TokenTypeAccess, iss := some "go-fiber",
    exp := some 1900, iat := some 1000 }

/-- The access token carrying `sampleBoundaryPayload`, correctly signed
with the sample secret. -/
def sampleBoundaryJWT : JWT :=
  { alg := .HS256, payload := sampleBoundaryPayload,
    sig := .mac sampleCfg.Secret .HS256 sampleBoundaryPayload }

/-- An unsigned (`alg = none`) token carrying otherwise perfect claims,
for the algorithm-pinning witness. -/
def sampleAlgNoneJWT : JWT :=
  { alg := .algNone,
    payload :=
      { userId := some "u1", username := some "alice", sessionId := some "s1",
        type_ := some TokenTypeAccess, iss := some "go-fiber",
        exp := some 999999, iat := some 1000 },
    sig := .forged "" }

/-- A registered user whose password is `pw123456`, for witnesses. -/
def sampleUser : User :=
  { ID := "u1", Username := "alice", Password := bcryptDigest "pw123456",
    Email := "alice@example.com", Image := "", CreatedAt := 0, UpdatedAt := 0 }

/-- A repository containing exactly `sampleUser`. -/
def sampleRepo : UserRepoState := { users := [sampleUser] }

/-- All repository calls succeed. -/
def noRepoFailures : RepoFailures :=
  { existsByUsernameFails := false, existsByEmailFails := false,
    createFails := false, getByUsernameFails := false, getByEmailFails := false }

/-- An empty session store with an empty operation log. -/
def emptyStore : SessionStoreState := { sessions := [], log := [] }

/-- An empty user repository, for the registration witness. -/
def emptyRepo : UserRepoState := { users := [] }

/-- The session created at the sample login, for witnesses: active, owned
by `u1`, expiring a refresh-lifetime after issuance. -/
def sampleSession : Session :=
  { ID := "s1", UserID := "u1", CreatedAt := 1000,
    ExpiresAt := 1000 + sampleCfg.RefreshExpiry, IsActive := true }

/-- A session store holding exactly `sampleSession` under its id. -/
def sampleStore : SessionStoreState :=
  { sessions := [("s1", sampleSession)], log := [] }

/-- C2: round-trip — for every non-empty userID, username and sessionID,
`ValidateAccessToken` applied to the token issued by
`generateAccessToken` succeeds and returns `Claims` whose user id,
username, session id equal the originals and whose type is `access`,
provided validation happens strictly before the expiry of the token
(`issuedAt + AccessExpiry`). -/
theorem validateAccessToken_roundtrip (cfg : JWTConfig)
    (issuedAt validatedAt : Int) (userID username sessionID : String)
    (hu : userID ≠ "") (hn : username ≠ "") (hs : sessionID ≠ "")
    (hexp : validatedAt < issuedAt + cfg.AccessExpiry) :
    ValidateAccessToken cfg validatedAt
        (generateAccessToken cfg issuedAt userID username sessionID)
      = .ok { UserID := userID, Username := username, SessionID := sessionID,
              type_ := TokenTypeAccess } := by
  have hlt : ¬ (issuedAt + cfg.AccessExpiry ≤ validatedAt) := by omega
  simp [ValidateAccessToken, generateAccessToken, validateToken, SigAlg.isHMAC,
        JWTPayload.expired, hlt, hu, hn, hs]

/-- Witness for C2 at a concrete configuration and identity. -/
theorem validateAccessToken_roundtrip_witness :
    ValidateAccessToken sampleCfg 1500
        (generateAccessToken sampleCfg 1000 "u1" "alice" "s1")
      = .ok { UserID := "u1", Username := "alice", SessionID := "s1",
              type_ := TokenTypeAccess } :=
  validateAccessToken_roundtrip sampleCfg 1000 1500 "u1" "alice" "s1"
    (by decide) (by decide) (by decide) (by decide)

/-- C7: token-type confusion is impossible — any validly signed,
unexpired token whose type claim is `refresh` is rejected by
`ValidateAccessToken` with the type-mismatch error, never accepted. -/
theorem validateAccessToken_rejects_refresh_token (cfg : JWTConfig)
    (now : Int) (t : JWT)
    (halg : t.alg.isHMAC = true)
    (hsig : t.sig = Signature.mac cfg.Secret t.alg t.payload)
    (hexp : t.payload.expired now = false)
    (htyp : t.payload.type_ = some TokenTypeRefresh) :
    ValidateAccessToken cfg now (.jwt t) = .error .invalidTokenType := by
  simp [ValidateAccessToken, validateToken, halg, hsig, hexp, htyp,
        TokenTypeRefresh, TokenTypeAccess]

/-- Witness for C7: a freshly issued refresh token presented to
`ValidateAccessToken` before its expiry. -/
theorem validateAccessToken_rejects_refresh_token_witness :
    ValidateAccessToken sampleCfg 1500 (.jwt sampleRefreshJWT)
      = .error .invalidTokenType :=
  validateAccessToken_rejects_refresh_token sampleCfg 1500 sampleRefreshJWT
    (by decide) rfl (by decide) rfl

/-- C8: expiry boundary — a validly signed token whose `exp` claim equals
the verification instant exactly is already expired (`exp <= now` with
zero leeway) and validation rejects it; the expiry failure surfaces as
the wrapped parse error of `jwt.Parse`.  There is no grace window. -/
theorem validateToken_exp_boundary (secret : String) (e : Int) (t : JWT)
    (expectedType : String)
    (halg : t.alg.isHMAC = true)
    (hsig : t.sig = Signature.mac secret t.alg t.payload)
    (hexp : t.payload.exp = some e) :
    t.payload.expired e = true ∧
      validateToken secret e (.jwt t) expectedType = .error .failedToParseToken := by
  have hx : t.payload.expired e = true := by
    simp [JWTPayload.expired, hexp]
  refine ⟨hx, ?_⟩
  simp [validateToken, halg, hsig, hx]

/-- Witness for C8: an access token verified exactly at its `exp`
instant (issued at 1000 with a 900-second lifetime, verified at 1900). -/
theorem validateToken_exp_boundary_witness :
    sampleBoundaryPayload.expired 1900 = true ∧
      validateToken sampleCfg.Secret 1900 (.jwt sampleBoundaryJWT) TokenTypeAccess
        = .error .failedToParseToken :=
  validateToken_exp_boundary sampleCfg.Secret 1900 sampleBoundaryJWT TokenTypeAccess
    (by decide) rfl rfl

/-- C10: algorithm pinning — a token whose header algorithm is outside
the HMAC family (`none`, RSA, ECDSA, ...) is rejected by `validateToken`
regardless of its payload and signature: the keyfunc refuses the signing
method and `jwt.Parse` returns an error. -/
theorem validateToken_rejects_non_hmac_alg (secret : String) (now : Int)
    (t : JWT) (expectedType : String)
    (halg : t.alg.isHMAC = false) :
    validateToken secret now (.jwt t) expectedType = .error .failedToParseToken := by
  simp [validateToken, halg]

/-- Witness for C10: the unsigned token is rejected. -/
theorem validateToken_rejects_non_hmac_alg_witness :
    validateToken sampleCfg.Secret 1500 (.jwt sampleAlgNoneJWT) TokenTypeAccess
      = .error .failedToParseToken :=
  validateToken_rejects_non_hmac_alg sampleCfg.Secret 1500 sampleAlgNoneJWT
    TokenTypeAccess (by decide)

/-- C1: the error `Login` (resp. `LoginByEmail`) returns when the user
lookup fails is identical to the error it returns when the user exists
but password verification fails: both are the single
`invalidCredentials` value, whose message is "invalid credentials", so
the two failure causes are indistinguishable to the caller. -/
theorem login_failures_indistinguishable (cfg : JWTConfig) (rf : RepoFailures)
    (setFails : Bool) (repo : UserRepoState) (st : SessionStoreState)
    (now : Int) (sessionID : String) (req : LoginRequest)
    (reqE : LoginByEmailRequest) :
    ((∀ e, GetByUsername rf.getByUsernameFails repo req.Username = .error e →
        (Login cfg rf setFails repo st now sessionID req).1
          = .error .invalidCredentials) ∧
     (∀ u, GetByUsername rf.getByUsernameFails repo req.Username = .ok u →
        verifyPassword u.Password req.Password = false →
        (Login cfg rf setFails repo st now sessionID req).1
          = .error .invalidCredentials) ∧
     (∀ e, GetByEmail rf.getByEmailFails repo reqE.Email = .error e →
        (LoginByEmail cfg rf setFails repo st now sessionID reqE).1
          = .error .invalidCredentials) ∧
     (∀ u, GetByEmail rf.getByEmailFails repo reqE.Email = .ok u →
        verifyPassword u.Password reqE.Password = false →
        (LoginByEmail cfg rf setFails repo st now sessionID reqE).1
          = .error .invalidCredentials) ∧
     AuthError.message .invalidCredentials = "invalid credentials") := by
  refine ⟨?_, ?_, ?_, ?_, rfl⟩
  · intro e he
    simp [Login, he]
  · intro u hu hv
    simp [Login, hu, hv]
  · intro e he
    simp [LoginByEmail, he]
  · intro u hu hv
    simp [LoginByEmail, hu, hv]

/-- Witness for C1: a nonexistent username and a wrong password for an
existing user produce the same error value. -/
theorem login_failures_indistinguishable_witness :
    (Login sampleCfg noRepoFailures false sampleRepo emptyStore 1000 "s1"
        { Username := "nobody", Password := "pw123456" }).1
      = .error .invalidCredentials ∧
    (Login sampleCfg noRepoFailures false sampleRepo emptyStore 1000 "s1"
        { Username := "alice", Password := "wrongpass" }).1
      = .error .invalidCredentials :=
  ⟨(login_failures_indistinguishable sampleCfg noRepoFailures false sampleRepo
      emptyStore 1000 "s1" { Username := "nobody", Password := "pw123456" }
      { Email := "", Password := "" }).1 "user not found" rfl,
   (login_failures_indistinguishable sampleCfg noRepoFailures false sampleRepo
      emptyStore 1000 "s1" { Username := "alice", Password := "wrongpass" }
      { Email := "", Password := "" }).2.1 sampleUser rfl (by decide)⟩

/-- Helper: the state `RefreshToken` hands back keeps the stored sessions
intact, and its log grows by exactly the one `Get` of the session
id when (and only when) the token decoded. -/
theorem RefreshToken_state_shape (cfg : JWTConfig) (getFails : Bool)
    (st : SessionStoreState) (now : Int) (req : RefreshTokenRequest) :
    (RefreshToken cfg getFails st now req).2.sessions = st.sessions ∧
    ((RefreshToken cfg getFails st now req).2.log = st.log ∨
      ∃ c, validateToken cfg.Secret now req.RefreshToken TokenTypeRefresh = .ok c ∧
        (RefreshToken cfg getFails st now req).2.log
          = st.log ++ [StoreOp.get c.SessionID]) := by
  cases hval : validateToken cfg.Secret now req.RefreshToken TokenTypeRefresh with
  | error e =>
    simp [RefreshToken, hval]
  | ok c =>
    cases hgf : getFails with
    | true =>
      refine ⟨?_, .inr ⟨c, rfl, ?_⟩⟩ <;> simp [RefreshToken, hval, storeGet, hgf]
    | false =>
      cases hl : lookupEntry st.sessions c.SessionID with
      | none =>
        refine ⟨?_, .inr ⟨c, rfl, ?_⟩⟩ <;> simp [RefreshToken, hval, storeGet, hgf, hl]
      | some session =>
        refine ⟨?_, .inr ⟨c, rfl, ?_⟩⟩ <;>
          by_cases hact : session.IsActive = false ∨ session.ExpiresAt < now <;>
            simp [RefreshToken, hval, storeGet, hgf, hl, hact]

/-- C9: `RefreshToken` never writes to the session store — whatever the
request and store state, the stored sessions afterwards equal those
before, and the operation log shows either no store call (token rejected
before the store is consulted) or exactly one `Get` of the decoded
session id. -/
theorem refreshToken_never_writes (cfg : JWTConfig) (getFails : Bool)
    (st : SessionStoreState) (now : Int) (req : RefreshTokenRequest) :
    (RefreshToken cfg getFails st now req).2.sessions = st.sessions ∧
    ((RefreshToken cfg getFails st now req).2.log = st.log ∨
      ∃ c, validateToken cfg.Secret now req.RefreshToken TokenTypeRefresh = .ok c ∧
        (RefreshToken cfg getFails st now req).2.log
          = st.log ++ [StoreOp.get c.SessionID]) :=
  RefreshToken_state_shape cfg getFails st now req

/-- Helper: a successful `validateToken` returns exactly the identity
claims carried by the token payload (each one present, a string, and
non-empty) and the expected token type. -/
theorem validateToken_ok_fields (secret : String) (now : Int) (t : JWT)
    (expectedType : String) (c : Claims)
    (h : validateToken secret now (.jwt t) expectedType = .ok c) :
    t.payload.userId = some c.UserID ∧ t.payload.username = some c.Username ∧
      t.payload.sessionId = some c.SessionID ∧ t.payload.type_ = some c.type_ ∧
      c.type_ = expectedType := by
  by_cases h1 : t.alg.isHMAC = false
  · simp [validateToken, h1] at h
  · by_cases h2 : t.sig = Signature.mac secret t.alg t.payload
    · by_cases h3 : t.payload.expired now = true
      · simp [validateToken, h1, h2, h3] at h
      · cases htyp : t.payload.type_ with
        | none => simp [validateToken, h1, h2, h3, htyp] at h
        | some ty =>
          by_cases h4 : ty = expectedType
          · by_cases h5 : t.payload.userId.getD "" = "" ∨
                t.payload.username.getD "" = "" ∨ t.payload.sessionId.getD "" = ""
            · simp [validateToken, h1, h2, h3, htyp, h4, h5] at h
            · simp [validateToken, h1, h2, h3, htyp, h4, h5] at h
              push_neg at h5
              obtain ⟨hu, hn, hsid⟩ := h5
              subst h4
              obtain rfl := h.symm
              refine ⟨?_, ?_, ?_, rfl, rfl⟩
              · cases hx : t.payload.userId with
                | none => rw [hx] at hu; simp at hu
                | some v => simp [hx]
              · cases hx : t.payload.username with
                | none => rw [hx] at hn; simp at hn
                | some v => simp [hx]
              · cases hx : t.payload.sessionId with
                | none => rw [hx] at hsid; simp at hsid
                | some v => simp [hx]
          · simp [validateToken, h1, h2, h3, htyp, h4] at h
    · simp [validateToken, h1, h2] at h

/-- C5: atomicity on failure — an errored `Login` or `LoginByEmail`
leaves the session-store contents unchanged, an errored `Register`
leaves the user repository unchanged, and an errored `RefreshToken`
leaves the session store unchanged (its error result carries no token).
The only failure possible after password verification is the session
store `Set` itself, which writes nothing; HMAC signing with a byte-slice
key is total, so token generation cannot fail afterwards. -/
theorem auth_failures_leave_state_unchanged (cfg : JWTConfig)
    (rf : RepoFailures) (setFails getFails : Bool) (repo : UserRepoState)
    (st : SessionStoreState) (now : Int) (sessionID newID : String)
    (req : LoginRequest) (reqE : LoginByEmailRequest)
    (regReq : RegisterRequest) (rreq : RefreshTokenRequest) :
    ((∀ e, (Login cfg rf setFails repo st now sessionID req).1 = .error e →
        (Login cfg rf setFails repo st now sessionID req).2.sessions = st.sessions) ∧
     (∀ e, (LoginByEmail cfg rf setFails repo st now sessionID reqE).1 = .error e →
        (LoginByEmail cfg rf setFails repo st now sessionID reqE).2.sessions
          = st.sessions) ∧
     (∀ e, (Register rf repo newID now regReq).1 = .error e →
        (Register rf repo newID now regReq).2 = repo) ∧
     (∀ e, (RefreshToken cfg getFails st now rreq).1 = .error e →
        (RefreshToken cfg getFails st now rreq).2.sessions = st.sessions)) := by
  refine ⟨?_, ?_, ?_, ?_⟩
  · intro e he
    cases hg : GetByUsername rf.getByUsernameFails repo req.Username with
    | error e' => simp [Login, hg]
    | ok u =>
      by_cases hv : verifyPassword u.Password req.Password = false
      · simp [Login, hg, hv]
      · cases hsf : setFails with
        | true => simp [Login, hg, hv, storeSet, hsf]
        | false => simp [Login, hg, hv, storeSet, hsf] at he
  · intro e he
    cases hg : GetByEmail rf.getByEmailFails repo reqE.Email with
    | error e' => simp [LoginByEmail, hg]
    | ok u =>
      by_cases hv : verifyPassword u.Password reqE.Password = false
      · simp [LoginByEmail, hg, hv]
      · cases hsf : setFails with
        | true => simp [LoginByEmail, hg, hv, storeSet, hsf]
        | false => simp [LoginByEmail, hg, hv, storeSet, hsf] at he
  · intro e he
    cases hx : ExistsByUsername rf.existsByUsernameFails repo regReq.Username with
    | error e' => simp [Register, hx]
    | ok b =>
      cases b with
      | true => simp [Register, hx]
      | false =>
        cases hm : (if regReq.Email = "" then (Except.ok false : Except String Bool)
            else ExistsByEmail rf.existsByEmailFails repo regReq.Email) with
        | error e' => simp [Register, hx, hm]
        | ok b' =>
          cases b' with
          | true => simp [Register, hx, hm]
          | false =>
            cases hh : hashPassword regReq.Password with
            | error e' => simp [Register, hx, hm, hh]
            | ok hp =>
              cases hcf : rf.createFails with
              | true => simp [Register, hx, hm, hh, Create, hcf]
              | false => simp [Register, hx, hm, hh, Create, hcf] at he
  · intro e he
    exact (RefreshToken_state_shape cfg getFails st now rreq).1

/-- Helper: `Logout` returns the success acknowledgment no matter what. -/
theorem Logout_message (cfg : JWTConfig) (deleteFails : Bool)
    (st : SessionStoreState) (now : Int) (req : LogoutRequest) :
    (Logout cfg deleteFails st now req).1
      = { Message := "Logged out successfully" } := by
  cases hr : req.RefreshToken with
  | none => simp [Logout, hr]
  | some tok =>
    cases hv : validateToken cfg.Secret now tok TokenTypeRefresh with
    | error e => simp [Logout, hr, hv]
    | ok c => simp [Logout, hr, hv]

/-- Helper: erasing an absent key is the identity on the session list. -/
theorem eraseEntry_of_lookup_none (sessions : List (String × Session))
    (sessionID : String) (h : lookupEntry sessions sessionID = none) :
    eraseEntry sessions sessionID = sessions := by
  unfold eraseEntry
  apply List.filter_eq_self.mpr
  intro e he
  unfold lookupEntry at h
  cases hf : sessions.find? (fun x => x.1 = sessionID) with
  | some x => rw [hf] at h; simp at h
  | none =>
    have hne := List.find?_eq_none.mp hf e he
    simpa using hne

/-- C4: `Logout` reports success and returns no error for every input:
with no refresh token it is a state-preserving no-op; a token the codec
rejects is swallowed and the store is untouched; for a decodable token the
session is deleted (erasing an already-absent session — the
already-consumed second logout — changes nothing, and the resulting
not-found error is swallowed); and logging out again with the same token
still reports success. -/
theorem logout_always_succeeds (cfg : JWTConfig) (deleteFails : Bool)
    (st : SessionStoreState) (now : Int) (req : LogoutRequest) :
    ((Logout cfg deleteFails st now req).1
        = { Message := "Logged out successfully" } ∧
     (req.RefreshToken = none → (Logout cfg deleteFails st now req).2 = st) ∧
     (∀ tok e, req.RefreshToken = some tok →
        validateToken cfg.Secret now tok TokenTypeRefresh = .error e →
        (Logout cfg deleteFails st now req).2 = st) ∧
     (∀ tok c, req.RefreshToken = some tok →
        validateToken cfg.Secret now tok TokenTypeRefresh = .ok c →
        deleteFails = false →
        (Logout cfg deleteFails st now req).2.sessions
          = eraseEntry st.sessions c.SessionID) ∧
     (Logout cfg deleteFails (Logout cfg deleteFails st now req).2 now req).1
        = { Message := "Logged out successfully" }) := by
  refine ⟨Logout_message cfg deleteFails st now req, ?_, ?_, ?_,
    Logout_message cfg deleteFails _ now req⟩
  · intro hr
    simp [Logout, hr]
  · intro tok e hr hv
    simp [Logout, hr, hv]
  · intro tok c hr hv hdf
    cases hl : lookupEntry st.sessions c.SessionID with
    | some s => simp [Logout, hr, hv, hdf, storeDelete, hl]
    | none =>
      simp [Logout, hr, hv, hdf, storeDelete, hl,
        eraseEntry_of_lookup_none st.sessions c.SessionID hl]

/-- Witness for C4: logging out with the freshly issued refresh token
deletes the stored session and reports success; the state-preserving
cases are exercised through the other conjuncts of the theorem elsewhere. -/
theorem logout_always_succeeds_witness :
    (Logout sampleCfg false sampleStore 2000
        { RefreshToken := some (generateRefreshToken sampleCfg 1000 "u1" "alice" "s1") }).1
      = { Message := "Logged out successfully" } ∧
    (Logout sampleCfg false sampleStore 2000
        { RefreshToken := some (generateRefreshToken sampleCfg 1000 "u1" "alice" "s1") }).2.sessions
      = eraseEntry sampleStore.sessions "s1" :=
  ⟨(logout_always_succeeds sampleCfg false sampleStore 2000
      { RefreshToken := some (generateRefreshToken sampleCfg 1000 "u1" "alice" "s1") }).1,
   (logout_always_succeeds sampleCfg false sampleStore 2000
      { RefreshToken := some (generateRefreshToken sampleCfg 1000 "u1" "alice" "s1") }).2.2.2.1
     (generateRefreshToken sampleCfg 1000 "u1" "alice" "s1")
     { UserID := "u1", Username := "alice", SessionID := "s1",
       type_ := TokenTypeRefresh }
     rfl rfl rfl⟩

/-- Helper: an existing username makes `Register` fail with the
duplicate-username error before anything else is consulted. -/
theorem Register_username_exists (rf : RepoFailures) (repo : UserRepoState)
    (newID : String) (now : Int) (req : RegisterRequest)
    (h1 : rf.existsByUsernameFails = false)
    (h : repo.users.any (fun u => u.Username = req.Username) = true) :
    Register rf repo newID now req = (.error .usernameAlreadyExists, repo) := by
  simp [Register, ExistsByUsername, h1, h]

/-- Counterexample to C6 as frozen: a triple that is not already
registered and passes request validation (80-character password, within
the 6..100 bounds) does not register successfully — bcrypt rejects
passwords over 72 bytes, so `Register` fails with the hash error and
writes nothing. -/
theorem register_spec_counterexample :
    Register noRepoFailures emptyRepo "u1" 500
        { Username := "bob",
          Password := "xxxxxxxxxxxxxxxxxxxxxxxxxxxxxxxxxxxxxxxxxxxxxxxxxxxxxxxxxxxxxxxxxxxxxxxxxxxxxxxx",
          Email := "", Image := "" }
      = (.error .failedToHashPassword, emptyRepo) := rfl

/-- C6 (amended): `Register` on a triple whose username (and, when
supplied, email) is not yet taken and whose password is within the
72-byte bound bcrypt accepts succeeds, inserting exactly one user row
and returning the sanitized user (the response is unaffected by the
stored password hash, last conjunct) with no token anywhere in the
response; a second `Register` with the same username fails with the
duplicate-username error whatever email it carries; and a fresh username
with an already-taken non-empty email fails with the duplicate-email
error. -/
theorem register_spec (rf : RepoFailures) (repo : UserRepoState)
    (newID newID' : String) (now now' : Int) (req req' : RegisterRequest)
    (h1 : rf.existsByUsernameFails = false)
    (h2 : rf.existsByEmailFails = false)
    (h3 : rf.createFails = false)
    (hfreshU : repo.users.any (fun u => u.Username = req.Username) = false)
    (hfreshE : req.Email = "" ∨
      repo.users.any (fun u => u.Email = req.Email) = false)
    (hpw : req.Password.utf8ByteSize ≤ 72) :
    (Register rf repo newID now req =
       (.ok { User := { ID := newID, Username := req.Username, Email := req.Email,
                        Image := req.Image, CreatedAt := now, UpdatedAt := now },
              Message := "User registered successfully" },
        { users := repo.users ++
            [{ ID := newID, Username := req.Username,
               Password := bcryptDigest req.Password, Email := req.Email,
               Image := req.Image, CreatedAt := now, UpdatedAt := now }] }) ∧
     (req'.Username = req.Username →
        Register rf (Register rf repo newID now req).2 newID' now' req'
          = (.error .usernameAlreadyExists, (Register rf repo newID now req).2)) ∧
     (∀ r : RegisterRequest,
        repo.users.any (fun u => u.Username = r.Username) = false →
        r.Email ≠ "" →
        repo.users.any (fun u => u.Email = r.Email) = true →
        Register rf repo newID' now' r = (.error .emailAlreadyExists, repo)) ∧
     (∀ u : User, ∀ p : String,
        ({ u with Password := p } : User).ToResponse = u.ToResponse)) := by
  have hnpw : ¬ (72 < req.Password.utf8ByteSize) := by omega
  have ha : Register rf repo newID now req =
      (.ok { User := { ID := newID, Username := req.Username, Email := req.Email,
                       Image := req.Image, CreatedAt := now, UpdatedAt := now },
             Message := "User registered successfully" },
       { users := repo.users ++
           [{ ID := newID, Username := req.Username,
              Password := bcryptDigest req.Password, Email := req.Email,
              Image := req.Image, CreatedAt := now, UpdatedAt := now }] }) := by
    by_cases hEe : req.Email = ""
    · simp [Register, ExistsByUsername, h1, hfreshU, hEe, hashPassword, hnpw,
        Create, h3, User.ToResponse]
    · rcases hfreshE with hE | hE
      · exact absurd hE hEe
      · simp [Register, ExistsByUsername, ExistsByEmail, h1, h2, hfreshU, hE, hEe,
          hashPassword, hnpw, Create, h3, User.ToResponse]
  refine ⟨ha, ?_, ?_, fun u p => rfl⟩
  · intro hequ
    rw [ha]
    apply Register_username_exists rf _ newID' now' req' h1
    simp [hequ]
  · intro r hU hEne hEtaken
    simp [Register, ExistsByUsername, ExistsByEmail, h1, h2, hU, hEne, hEtaken]

/-- Witness for C6: registering `alice` in an empty repository succeeds
with the sanitized user, and a second registration of `alice` with a
fresh email is refused as a duplicate username. -/
theorem register_spec_witness :
    Register noRepoFailures emptyRepo "u1" 500
        { Username := "alice", Password := "pw123456",
          Email := "alice@example.com", Image := "" }
      = (.ok { User := { ID := "u1", Username := "alice",
                         Email := "alice@example.com", Image := "",
                         CreatedAt := 500, UpdatedAt := 500 },
               Message := "User registered successfully" },
         { users := [{ ID := "u1", Username := "alice",
                       Password := bcryptDigest "pw123456",
                       Email := "alice@example.com", Image := "",
                       CreatedAt := 500, UpdatedAt := 500 }] }) ∧
    Register noRepoFailures
        { users := [{ ID := "u1", Username := "alice",
                      Password := bcryptDigest "pw123456",
                      Email := "alice@example.com", Image := "",
                      CreatedAt := 500, UpdatedAt := 500 }] } "u2" 600
        { Username := "alice", Password := "otherpw",
          Email := "fresh@example.com", Image := "" }
      = (.error .usernameAlreadyExists,
         { users := [{ ID := "u1", Username := "alice",
                       Password := bcryptDigest "pw123456",
                       Email := "alice@example.com", Image := "",
                       CreatedAt := 500, UpdatedAt := 500 }] }) :=
  ⟨(register_spec noRepoFailures emptyRepo "u1" "u2" 500 600
      { Username := "alice", Password := "pw123456",
        Email := "alice@example.com", Image := "" }
      { Username := "alice", Password := "otherpw",
        Email := "fresh@example.com", Image := "" }
      rfl rfl rfl rfl (.inr rfl) (by decide)).1,
   (register_spec noRepoFailures emptyRepo "u1" "u2" 500 600
      { Username := "alice", Password := "pw123456",
        Email := "alice@example.com", Image := "" }
      { Username := "alice", Password := "otherpw",
        Email := "fresh@example.com", Image := "" }
      rfl rfl rfl rfl (.inr rfl) (by decide)).2.1 rfl⟩

/-- C3: `RefreshToken` case analysis — a token the codec rejects (for any
reason) yields the single generic `invalidRefreshToken` error; a failed
session-store lookup yields `invalidSession`; an inactive or past-expiry
session yields `sessionExpired`; otherwise the call succeeds with a new
access token minted from the refresh token user id, username and
session id (which the token payload carries verbatim, last conjunct),
and the response type carries no refresh token. -/
theorem refreshToken_spec (cfg : JWTConfig) (getFails : Bool)
    (st : SessionStoreState) (now : Int) (req : RefreshTokenRequest) :
    ((∀ e, validateToken cfg.Secret now req.RefreshToken TokenTypeRefresh = .error e →
        RefreshToken cfg getFails st now req = (.error .invalidRefreshToken, st)) ∧
     (∀ c e, validateToken cfg.Secret now req.RefreshToken TokenTypeRefresh = .ok c →
        (storeGet getFails st c.SessionID).1 = .error e →
        (RefreshToken cfg getFails st now req).1 = .error .invalidSession) ∧
     (∀ c s, validateToken cfg.Secret now req.RefreshToken TokenTypeRefresh = .ok c →
        (storeGet getFails st c.SessionID).1 = .ok s →
        (s.IsActive = false ∨ s.ExpiresAt < now) →
        (RefreshToken cfg getFails st now req).1 = .error .sessionExpired) ∧
     (∀ c s, validateToken cfg.Secret now req.RefreshToken TokenTypeRefresh = .ok c →
        (storeGet getFails st c.SessionID).1 = .ok s →
        s.IsActive = true → now ≤ s.ExpiresAt →
        (RefreshToken cfg getFails st now req).1 =
          .ok { AccessToken :=
                  generateAccessToken cfg now c.UserID c.Username c.SessionID,
                ExpiresAt := now + cfg.AccessExpiry }) ∧
     (∀ t c, req.RefreshToken = .jwt t →
        validateToken cfg.Secret now req.RefreshToken TokenTypeRefresh = .ok c →
        t.payload.userId = some c.UserID ∧ t.payload.username = some c.Username ∧
          t.payload.sessionId = some c.SessionID)) := by
  refine ⟨?_, ?_, ?_, ?_, ?_⟩
  · intro e he
    simp [RefreshToken, he]
  · intro c e hc hg
    cases hsg : storeGet getFails st c.SessionID with
    | mk r st' =>
      rw [hsg] at hg
      simp at hg
      obtain rfl := hg
      simp [RefreshToken, hc, hsg]
  · intro c s hc hg hdead
    cases hsg : storeGet getFails st c.SessionID with
    | mk r st' =>
      rw [hsg] at hg
      simp at hg
      obtain rfl := hg
      simp [RefreshToken, hc, hsg, hdead]
  · intro c s hc hg hact hexp
    cases hsg : storeGet getFails st c.SessionID with
    | mk r st' =>
      rw [hsg] at hg
      simp at hg
      obtain rfl := hg
      have hnot : ¬ (s.IsActive = false ∨ s.ExpiresAt < now) := by
        push_neg
        exact ⟨by simp [hact], by omega⟩
      simp [RefreshToken, hc, hsg, hnot]
  · intro t c hjwt hc
    rw [hjwt] at hc
    obtain ⟨hu, hn, hs, _, _⟩ := validateToken_ok_fields cfg.Secret now t
      TokenTypeRefresh c hc
    exact ⟨hu, hn, hs⟩

/-- Witness for C3: refreshing with the freshly issued refresh token
against the live session mints the expected access token. -/
theorem refreshToken_spec_witness :
    (RefreshToken sampleCfg false sampleStore 2000
        { RefreshToken := generateRefreshToken sampleCfg 1000 "u1" "alice" "s1" }).1
      = .ok { AccessToken := generateAccessToken sampleCfg 2000 "u1" "alice" "s1",
              ExpiresAt := 2000 + sampleCfg.AccessExpiry } :=
  (refreshToken_spec sampleCfg false sampleStore 2000
      { RefreshToken := generateRefreshToken sampleCfg 1000 "u1" "alice" "s1" }).2.2.2.1
    { UserID := "u1", Username := "alice", SessionID := "s1",
      type_ := TokenTypeRefresh }
    sampleSession rfl rfl rfl (by decide)

/-- Witness for C5: a login whose session-store `Set` fails (the store
backend is down) errors after the password was verified, yet writes
nothing. -/
theorem auth_failures_leave_state_unchanged_witness :
    (Login sampleCfg noRepoFailures true sampleRepo emptyStore 1000 "s1"
        { Username := "alice", Password := "pw123456" }).1
      = .error .failedToCreateSession ∧
    (Login sampleCfg noRepoFailures true sampleRepo emptyStore 1000 "s1"
        { Username := "alice", Password := "pw123456" }).2.sessions
      = emptyStore.sessions :=
  ⟨by rfl,
   (auth_failures_leave_state_unchanged sampleCfg noRepoFailures true true
      sampleRepo emptyStore 1000 "s1" "u2"
      { Username := "alice", Password := "pw123456" }
      { Email := "", Password := "" }
      { Username := "", Password := "", Email := "", Image := "" }
      { RefreshToken := .malformed "" }).1
     AuthError.failedToCreateSession rfl⟩

